import Mathlib

/-!
Verification of the VoiceNote text pipeline and session controller.

This file gives a shallow embedding, over `List Char` and plain Lean
structures, of the components of the VoiceNote repository that the
specification talks about:

* `voice_commands.py` — the voice-command rule table and the sequential
  regex substitution performed by `VoiceCommandProcessor.process`;
* `app_profiles.py` — the destination-profile table, `get_profile`
  resolution (exact match, case-insensitive fuzzy match, fallback) and
  `_strip_markdown`, the plain-text reducer;
* `formatter.py` — the control flow of `Formatter.format_text`
  (lazy client construction and exception handling), with the remote
  collaborator abstracted as `Except`-valued parameters;
* `main.py` — the right-command double-tap gesture detector
  (`flags_changed_callback`), `toggle_recording`, and the
  `try/except/finally` skeleton of `_process_audio`.

Python regular expressions are embedded as dedicated scanners that
reproduce the exact leftmost, non-overlapping matching behaviour of
`re.sub` for the concrete patterns appearing in the source, including
the greedy/lazy quantifier behaviour those patterns exhibit and the
MULTILINE treatment of `^` and `$`.  Machine floats (`time.time()`)
are modelled as rationals.
-/

/-! ## Character classes

`isPySpace` models Python's `\s` (and `str.strip`'s whitespace set) on the
characters that can actually occur in this code base: the six ASCII
whitespace characters plus the ideographic space U+3000. -/

def isPySpace (c : Char) : Bool :=
  c == ' ' || c == '\t' || c == '\n' || c == '\r' || c == '\x0b' ||
    c == '\x0c' || c == '　'

/-- The boundary class `[\s、。，．,.\n]` used around every voice-command
trigger in `voice_commands.py` (line 73). -/
def isCmdBoundary (c : Char) : Bool :=
  isPySpace c || c == '、' || c == '。' || c == '，' || c == '．' ||
    c == ',' || c == '.'

/-- `startsWith p l` : the pattern `p` is a prefix of `l`. -/
def startsWith : List Char → List Char → Bool
  | [], _ => true
  | _ :: _, [] => false
  | a :: as, b :: bs => a == b && startsWith as bs

/-- `listInfix p l` : the pattern `p` occurs contiguously inside `l`. -/
def listInfix (p : List Char) : List Char → Bool
  | [] => startsWith p []
  | c :: rest => startsWith p (c :: rest) || listInfix p rest

/-! ## Voice commands (`voice_commands.py`)

`COMMANDS` is the built-in rule table, transcribed verbatim. -/

def COMMANDS : List (String × String) := [
  ("新しい段落", "\n\n"),
  ("段落変えて", "\n\n"),
  ("段落変え", "\n\n"),
  ("改行して", "\n"),
  ("改行", "\n"),
  ("大見出し", "\n\n# "),
  ("見出し3", "\n\n### "),
  ("見出し2", "\n\n## "),
  ("見出し1", "\n\n# "),
  ("見出し", "\n\n## "),
  ("小見出し", "\n\n### "),
  ("箇条書き開始", "\n\n"),
  ("次の項目", "\n- "),
  ("項目", "\n- "),
  ("リスト", "\n- "),
  ("コードブロック開始", "\n```\n"),
  ("コードブロック終了", "\n```\n"),
  ("コード開始", "\n```\n"),
  ("コード終了", "\n```\n"),
  ("インラインコード", "`"),
  ("太字開始", "**"),
  ("太字終了", "**"),
  ("太字", "**"),
  ("斜体開始", "*"),
  ("斜体終了", "*"),
  ("水平線", "\n\n---\n\n"),
  ("区切り線", "\n\n---\n\n"),
  ("引用開始", "\n\n> "),
  ("引用", "\n> ")]

/-- Stable insertion: place `x` before the first element whose trigger is
not longer than `x`'s.  Folded over the list from the right this is
exactly a stable sort by trigger length, descending — the behaviour of
Python's `list.sort(key=lambda x: len(x[0]), reverse=True)`
(`voice_commands.py` line 67). -/
def insertCmd (x : String × String) : List (String × String) → List (String × String)
  | [] => [x]
  | y :: ys => if y.1.length ≤ x.1.length then x :: y :: ys else y :: insertCmd x ys

/-- Stable sort by trigger length, descending. -/
def sortCmds : List (String × String) → List (String × String)
  | [] => []
  | x :: xs => insertCmd x (sortCmds xs)

/-- One attempt of the compiled pattern
`(?:^|(?<=[\s、。，．,.\n]))(cmd)(?:[\s、。，．,.\n]|$)` at the current
position (the look-behind part is handled by the caller).  Returns the
total number of characters consumed by the match: the trigger itself,
plus the single trailing boundary character when one is present (the
trailing group is consuming; `$` consumes nothing). -/
def matchLen (cmd s : List Char) : Option Nat :=
  if startsWith cmd s then
    match s.drop cmd.length with
    | [] => some cmd.length
    | d :: _ => if isCmdBoundary d then some (cmd.length + 1) else none
  else none

/-- The scanner realising `pattern.sub(replacement, text)` for one rule.
`skip` counts match characters still to be consumed silently (replacement
text is emitted up front and never rescanned by the same rule); `bOk`
records whether the previous character of the *original* text was a
boundary (the look-behind), with `bOk = true` at the start of the string
(`^`). -/
def subGo (cmd repl : List Char) : Nat → Bool → List Char → List Char
  | _, _, [] => []
  | k + 1, _, c :: rest => subGo cmd repl k (isCmdBoundary c) rest
  | 0, bOk, c :: rest =>
    if bOk then
      match matchLen cmd (c :: rest) with
      | some m => repl ++ subGo cmd repl (m - 1) (c == '\n') rest
      | none => c :: subGo cmd repl 0 (isCmdBoundary c) rest
    else c :: subGo cmd repl 0 (isCmdBoundary c) rest

/-- `pattern.sub(replacement, text)` for one rule, from the start of text. -/
def subAll (cmd repl s : List Char) : List Char :=
  subGo cmd repl 0 true s

/-- The loop `for pattern, cmd_text, replacement in self._patterns:
result = pattern.sub(replacement, result)` — each rule is applied once,
in order, to the *result* of the previous rules. -/
def applyRules : List (List Char × List Char) → List Char → List Char
  | [], s => s
  | (cmd, repl) :: rs, s => applyRules rs (subAll cmd repl s)

/-- `re.sub(r"\n{3,}", "\n\n", ·)` : every run of three or more newlines
collapses to exactly two.  `n` counts the newlines just emitted. -/
def collapseGo : Nat → List Char → List Char
  | _, [] => []
  | n, c :: rest =>
    if c == '\n' then
      if 2 ≤ n then collapseGo n rest else '\n' :: collapseGo (n + 1) rest
    else c :: collapseGo 0 rest

def collapseNL (s : List Char) : List Char :=
  collapseGo 0 s

/-- `str.lstrip("\n")`. -/
def lstripNL : List Char → List Char
  | [] => []
  | c :: rest => if c == '\n' then lstripNL rest else c :: rest

/-- `str.rstrip()` — remove trailing whitespace. -/
def rstripPy (s : List Char) : List Char :=
  (s.reverse.dropWhile isPySpace).reverse

/-- `str.strip()` — remove leading and trailing whitespace. -/
def stripPy (s : List Char) : List Char :=
  rstripPy (s.dropWhile isPySpace)

/-- `str.strip()` on `String`. -/
def pyStrip (s : String) : String :=
  String.mk (stripPy s.data)

/-- The matcher list built by `VoiceCommandProcessor.__init__`:
user-supplied rules prepended to the built-ins, then stably sorted by
trigger length, descending. -/
def buildRules (custom : List (String × String)) : List (List Char × List Char) :=
  (sortCmds (custom ++ COMMANDS)).map (fun p => (p.1.data, p.2.data))

/-- `VoiceCommandProcessor.process`: the guard on `enabled`/empty text,
the per-rule substitution loop, then blank-line collapsing, leading
newline removal and trailing whitespace removal. -/
def vcProcess (enabled : Bool) (custom : List (String × String)) (text : String) : String :=
  if !enabled || text == "" then text
  else
    String.mk (rstripPy (lstripNL (collapseNL (applyRules (buildRules custom) text.data))))

/-! ## The plain-text reducer `AppProfileManager._strip_markdown`

Each `re.sub` pass of `_strip_markdown` is embedded as its own scanner.
All scanners walk the text left to right and reproduce `re.sub`'s
leftmost, non-overlapping matching. -/

/-- A line-start match attempt for the MULTILINE patterns.  Returns the
total number of characters the match consumes (all these patterns have an
empty replacement). -/
def scanGo (tm : List Char → Option Nat) : Nat → Bool → List Char → List Char
  | _, _, [] => []
  | k + 1, _, c :: rest => scanGo tm k (c == '\n') rest
  | 0, ls, c :: rest =>
    if ls then
      match tm (c :: rest) with
      | some m => scanGo tm (m - 1) (c == '\n') rest
      | none => c :: scanGo tm 0 (c == '\n') rest
    else c :: scanGo tm 0 (c == '\n') rest

/-- `^#{1,6}\s+` : one to six hashes at line start followed by at least one
whitespace character; `\s+` is greedy and may run across newlines. -/
def headingTM (s : List Char) : Option Nat :=
  let n := (s.takeWhile (fun c => c == '#')).length
  if 1 ≤ n ∧ n ≤ 6 then
    let w := ((s.drop n).takeWhile isPySpace).length
    if 1 ≤ w then some (n + w) else none
  else none

/-- `^[\s]*[-*+]\s+` : optional whitespace (greedy, may cross newlines), a
bullet character, then at least one whitespace character. -/
def bulletTM (s : List Char) : Option Nat :=
  let w0 := (s.takeWhile isPySpace).length
  match s.drop w0 with
  | [] => none
  | b :: r =>
    if b == '-' || b == '*' || b == '+' then
      let w1 := (r.takeWhile isPySpace).length
      if 1 ≤ w1 then some (w0 + 1 + w1) else none
    else none

/-- `^[\s]*\d+\.\s+` : optional whitespace, digits, a dot, whitespace. -/
def orderedTM (s : List Char) : Option Nat :=
  let w0 := (s.takeWhile isPySpace).length
  let r := s.drop w0
  let d := (r.takeWhile (fun c => c.isDigit)).length
  if 1 ≤ d then
    match r.drop d with
    | [] => none
    | dot :: r2 =>
      if dot == '.' then
        let w1 := (r2.takeWhile isPySpace).length
        if 1 ≤ w1 then some (w0 + d + 1 + w1) else none
      else none
  else none

/-- `^>\s+` : a quote marker at line start followed by whitespace. -/
def quoteTM (s : List Char) : Option Nat :=
  match s with
  | [] => none
  | g :: r =>
    if g == '>' then
      let w := (r.takeWhile isPySpace).length
      if 1 ≤ w then some (1 + w) else none
    else none

/-- `^---+$` : a line consisting of three or more hyphens (`$` matches
before a newline or at the end of the string and consumes nothing). -/
def hrTM (s : List Char) : Option Nat :=
  let d := (s.takeWhile (fun c => c == '-')).length
  if 3 ≤ d then
    match s.drop d with
    | [] => some d
    | c :: _ => if c == '\n' then some d else none
  else none

/-- Find the earliest closing delimiter for `delim(.+?)delim`: at least one
accumulated content character (`.+?` is lazy, so the first position where
the closing delimiter fits wins), and `.` never matches a newline.
Returns the reversed-accumulated content and the text after the closing
delimiter. -/
def findClose (delim : List Char) (acc : List Char) : List Char → Option (List Char × List Char)
  | [] => none
  | c :: rest =>
    if acc ≠ [] ∧ startsWith delim (c :: rest) then
      some (acc.reverse, (c :: rest).drop delim.length)
    else if c == '\n' then none
    else findClose delim (c :: acc) rest

/-- `re.sub` for the emphasis / inline-code patterns `delim(.+?)delim`,
replacement `\1` (the emitted text is the content between the
delimiters). -/
def pairGo (delim : List Char) : Nat → List Char → List Char
  | _, [] => []
  | k + 1, _ :: rest => pairGo delim k rest
  | 0, c :: rest =>
    if startsWith delim (c :: rest) then
      match findClose delim [] ((c :: rest).drop delim.length) with
      | some (content, after) =>
        content ++ pairGo delim ((c :: rest).length - after.length - 1) rest
      | none => c :: pairGo delim 0 rest
    else c :: pairGo delim 0 rest

/-- Find the earliest closing fence for ```` ```[\s\S]*?``` ````: content is
lazy and may be empty and may contain newlines.  Returns the text after
the closing fence. -/
def findFence : List Char → Option (List Char)
  | [] => none
  | c :: rest =>
    if startsWith ['`', '`', '`'] (c :: rest) then some ((c :: rest).drop 3)
    else findFence rest

/-- `re.sub` for ```` ```[\s\S]*?``` ```` with empty replacement. -/
def codeGo : Nat → List Char → List Char
  | _, [] => []
  | k + 1, _ :: rest => codeGo k rest
  | 0, c :: rest =>
    if startsWith ['`', '`', '`'] (c :: rest) then
      match findFence ((c :: rest).drop 3) with
      | some after => codeGo ((c :: rest).length - after.length - 1) rest
      | none => c :: codeGo 0 rest
    else c :: codeGo 0 rest

/-- `AppProfileManager._strip_markdown`: the eleven `re.sub` passes in
source order (headings; bold; italic; `__`; `_`; inline code; fenced code
blocks; bullet lists; ordered lists; quotes; horizontal rules), then
blank-line collapsing and `str.strip()`. -/
def strip_markdown (text : String) : String :=
  String.mk (stripPy (collapseNL (
    scanGo hrTM 0 true (
    scanGo quoteTM 0 true (
    scanGo orderedTM 0 true (
    scanGo bulletTM 0 true (
    codeGo 0 (
    pairGo ['`'] 0 (
    pairGo ['_'] 0 (
    pairGo ['_', '_'] 0 (
    pairGo ['*'] 0 (
    pairGo ['*', '*'] 0 (
    scanGo headingTM 0 true text.data)))))))))))))

/-! ## Destination profiles (`app_profiles.py`)

A profile dictionary is modelled as a structure; the `_app_name` key that
`get_profile` writes into the returned dictionary is the `appName` field
(`none` = key absent).  The manager's `_profiles` dict is an association
list in insertion order. -/

structure Profile where
  name : String
  format_mode : String
  strip_markdown : Bool
  add_trailing_newline : Bool
  appName : Option String := none
deriving DecidableEq, Repr

def DEFAULT_PROFILES : List (String × Profile) := [
  ("Google Chrome", ⟨"ブラウザ", "auto", false, false, none⟩),
  ("Safari", ⟨"Safari", "auto", false, false, none⟩),
  ("Arc", ⟨"Arc", "auto", false, false, none⟩),
  ("Firefox", ⟨"Firefox", "auto", false, false, none⟩),
  ("Slack", ⟨"Slack", "plain", true, false, none⟩),
  ("LINE", ⟨"LINE", "plain", true, false, none⟩),
  ("Discord", ⟨"Discord", "auto", false, false, none⟩),
  ("Messages", ⟨"メッセージ", "plain", true, false, none⟩),
  ("Mail", ⟨"メール", "plain", true, true, none⟩),
  ("Notes", ⟨"メモ", "structured", false, true, none⟩),
  ("Notion", ⟨"Notion", "structured", false, false, none⟩),
  ("Obsidian", ⟨"Obsidian", "structured", false, true, none⟩),
  ("Code", ⟨"VS Code", "auto", false, true, none⟩),
  ("Cursor", ⟨"Cursor", "auto", false, true, none⟩),
  ("Terminal", ⟨"ターミナル", "plain", true, false, none⟩),
  ("iTerm2", ⟨"iTerm2", "plain", true, false, none⟩)]

def FALLBACK_PROFILE : Profile :=
  ⟨"デフォルト", "auto", false, false, none⟩

structure AppProfileManager where
  enabled : Bool
  profiles : List (String × Profile)
deriving DecidableEq

def defaultManager : AppProfileManager :=
  ⟨true, DEFAULT_PROFILES⟩

/-- Walk the table in insertion order; at the first key satisfying `pred`,
write the `_app_name` annotation into the stored entry (the Python
`profile["_app_name"] = app_name` mutates the dict held in the table) and
return that same annotated entry together with the updated table. -/
def annotateFirst (pred : String → Bool) (app : String) :
    List (String × Profile) → Option (Profile × List (String × Profile))
  | [] => none
  | (k, p) :: rest =>
    if pred k then
      some ({ p with appName := some app }, (k, { p with appName := some app }) :: rest)
    else
      match annotateFirst pred app rest with
      | some (q, t) => some (q, (k, p) :: t)
      | none => none

/-- `str.lower()` on the characters occurring in profile keys (ASCII
case folding; other characters are unaffected). -/
def toLowerAscii (c : Char) : Char :=
  if 'A' ≤ c ∧ c ≤ 'Z' then Char.ofNat (c.toNat + 32) else c

/-- The fuzzy test `key.lower() in app_lower or app_lower in key.lower()`. -/
def fuzzyMatch (key app : String) : Bool :=
  listInfix (key.data.map toLowerAscii) (app.data.map toLowerAscii) ||
    listInfix (app.data.map toLowerAscii) (key.data.map toLowerAscii)

/-- `AppProfileManager.get_profile`.  `appName?` is the optional argument;
`activeApp` is what `get_active_app()` would return when the argument is
`none`.  The returned manager carries the table as it is after the call —
on an exact or fuzzy match the stored entry itself was annotated; only
the fallback path builds a fresh `dict(FALLBACK_PROFILE)` copy. -/
def get_profile (mgr : AppProfileManager) (appName? : Option String) (activeApp : String) :
    Profile × AppProfileManager :=
  if !mgr.enabled then (FALLBACK_PROFILE, mgr)
  else
    let app := appName?.getD activeApp
    if app == "" then (FALLBACK_PROFILE, mgr)
    else
      match annotateFirst (fun k => k == app) app mgr.profiles with
      | some (p, t) => (p, { mgr with profiles := t })
      | none =>
        match annotateFirst (fun k => fuzzyMatch k app) app mgr.profiles with
        | some (p, t) => (p, { mgr with profiles := t })
        | none => ({ FALLBACK_PROFILE with appName := some app }, mgr)

/-- `text.endswith("\n")`. -/
def endsWithNewline (s : String) : Bool :=
  s.data.getLast? == some '\n'

/-- `AppProfileManager.apply_profile`: strip markdown if the profile says
so, then add a trailing newline if requested and missing. -/
def apply_profile (text : String) (p : Profile) : String :=
  if text == "" then text
  else
    let r := if p.strip_markdown then strip_markdown text else text
    if p.add_trailing_newline && !endsWithNewline r then r ++ "\n" else r

/-! ## `Formatter.format_text` (`formatter.py`)

The remote collaborator is abstracted: `mkClient` is the outcome of
`_get_client()` (lazy `genai.Client` construction — note that in the
source this call sits *outside* the `try` block), `gen` is the outcome of
`client.models.generate_content` with the new-SDK `config=` call, and
`genOld` the outcome of the old-SDK fallback call.  A generation outcome
`some s` is `response.text = s`; `none` is a falsy `response.text`.
Python exceptions are `Except.error`. -/

inductive PyErr
  | importErr
  | otherErr (msg : String)
deriving DecidableEq, Repr

/-- `result = response.text.strip() if response.text else raw_text`. -/
def respText (t : Option String) (raw : String) : String :=
  match t with
  | none => raw
  | some s => if s == "" then raw else pyStrip s

/-- `Formatter.format_text`.  Blank input returns `""` at once.  Then the
client is constructed outside any `try`, so a construction failure
propagates.  With a client in hand, the generation call runs inside
`try`: an `ImportError` retries with the old-SDK call (any failure of
which yields the raw text); any other exception yields the raw text. -/
def format_text {C : Type} (mkClient : Except PyErr C)
    (gen genOld : C → Except PyErr (Option String)) (raw : String) :
    Except PyErr String :=
  if pyStrip raw == "" then .ok ""
  else
    match mkClient with
    | .error e => .error e
    | .ok c =>
      match gen c with
      | .ok t => .ok (respText t raw)
      | .error .importErr =>
        match genOld c with
        | .ok t => .ok (respText t raw)
        | .error _ => .ok raw
      | .error (.otherErr _) => .ok raw

/-! ## The double-tap gesture detector (`main.py`, `flags_changed_callback`)

Wall-clock timestamps are modelled as rationals.  The state is the three
mutable variables `_rcmd_press_time`, `_rcmd_last_tap`,
`_rcmd_was_pressed`, initialised to `0`, `0`, `False` in
`_setup_hotkey`. -/

structure GState where
  pressTime : ℚ
  lastTap : ℚ
  wasPressed : Bool
deriving DecidableEq, Repr

def TAP_THRESHOLD : ℚ := 1 / 4

def DOUBLE_TAP_INTERVAL : ℚ := 1 / 2

def initGState : GState := ⟨0, 0, false⟩

/-- One `flags_changed_callback` delivery: `t` is `time.time()`,
`rcmdPressed` the decoded right-command flag.  Returns the next state and
whether `toggle_recording` was invoked (a `Trigger`). -/
def gstep (s : GState) (t : ℚ) (rcmdPressed : Bool) : GState × Bool :=
  if rcmdPressed && !s.wasPressed then
    ({ s with pressTime := t, wasPressed := rcmdPressed }, false)
  else if !rcmdPressed && s.wasPressed then
    if t - s.pressTime < TAP_THRESHOLD then
      if t - s.lastTap < DOUBLE_TAP_INTERVAL then
        ({ s with lastTap := 0, wasPressed := rcmdPressed }, true)
      else
        ({ s with lastTap := t, wasPressed := rcmdPressed }, false)
    else ({ s with wasPressed := rcmdPressed }, false)
  else ({ s with wasPressed := rcmdPressed }, false)

/-- Run the detector over an event stream, counting emitted triggers. -/
def grun (s : GState) : List (ℚ × Bool) → GState × Nat
  | [] => (s, 0)
  | (t, p) :: evs =>
    let r := gstep s t p
    let rec2 := grun r.1 evs
    (rec2.1, (if r.2 then 1 else 0) + rec2.2)

/-! ## The session controller (`main.py`, `VoiceNoteApp`) -/

def ICON_IDLE : String := "🎙"

def ICON_RECORDING : String := "🔴"

def ICON_PROCESSING : String := "⏳"

def IDLE_BUTTON : String := "録音開始 (右⌘×2)"

structure AppState where
  recording : Bool
  processing : Bool
  transcriberLoading : Bool
  title : String
  recordButtonTitle : String
  statusMsg : String
deriving DecidableEq, Repr

/-- Externally visible effects of one `toggle_recording` call. -/
structure ToggleEffect where
  notified : Option String
  captureStarted : Bool
  processingThreadStarted : Bool
deriving DecidableEq, Repr

def BUSY_MSG : String := "処理中です。しばらくお待ちください。"

/-- `VoiceNoteApp._start_recording`. -/
def start_recording (s : AppState) : AppState :=
  { s with recording := true, title := ICON_RECORDING,
           recordButtonTitle := "録音停止 (右⌘×2)", statusMsg := "録音中..." }

/-- `VoiceNoteApp._stop_recording`; `audioPath` is what `recorder.stop()`
returns (`""` = no captured data). -/
def stop_recording (s : AppState) (audioPath : String) : AppState × ToggleEffect :=
  let s1 := { s with recording := false, title := ICON_PROCESSING,
                     recordButtonTitle := "処理中...", statusMsg := "録音停止、処理開始..." }
  if audioPath == "" then
    ({ s1 with title := ICON_IDLE, recordButtonTitle := IDLE_BUTTON,
               statusMsg := "録音データがありません" }, ⟨none, false, false⟩)
  else
    ({ s1 with processing := true }, ⟨none, false, true⟩)

/-- `VoiceNoteApp.toggle_recording` — the single entry point for triggers,
whether they come from the gesture detector or from the menu item. -/
def toggle_recording (s : AppState) (audioPath : String) : AppState × ToggleEffect :=
  if s.processing then
    (s, ⟨some BUSY_MSG, false, false⟩)
  else if s.transcriberLoading then
    (s, ⟨some "モデルを読み込み中です。しばらくお待ちください。", false, false⟩)
  else if !s.recording then
    (start_recording s, ⟨none, true, false⟩)
  else
    stop_recording s audioPath

/-- Outcomes of the fallible steps of `VoiceNoteApp._process_audio`:
transcription (model load + `transcribe`), the formatting/output stage
(formatter call, clipboard, paste — any of which may raise), and the
markdown file save.  `Except.error` is a raised exception. -/
structure StepOutcomes where
  transcribeR : Except String String
  formatR : Except String String
  saveR : Except String Unit

/-- `VoiceNoteApp._process_audio`: the `try` body runs the steps in
order; a blank transcript ends the run early (`return` inside `try`); any
exception is caught by `except Exception` which records an error status;
and the `finally` block — clearing `_processing`, restoring the idle icon
and button, and `AudioRecorder.cleanup` — runs unconditionally on every
path.  The returned `Bool` reports that cleanup ran. -/
def process_audio (s : AppState) (o : StepOutcomes) : AppState × Bool :=
  let afterTry :=
    match o.transcribeR with
    | .error e => { s with statusMsg := "エラー: " ++ e }
    | .ok rawText =>
      if pyStrip rawText == "" then { s with statusMsg := "音声が検出されませんでした" }
      else
        match o.formatR with
        | .error e => { s with statusMsg := "エラー: " ++ e }
        | .ok _formatted =>
          match o.saveR with
          | .error e => { s with statusMsg := "エラー: " ++ e }
          | .ok _ => { s with statusMsg := "待機中" }
  ({ afterTry with processing := false, title := ICON_IDLE,
                   recordButtonTitle := IDLE_BUTTON }, true)

/-! ## Auxiliary notions used by the statements -/

/-- `text` contains a whole-word occurrence of the trigger `cmd`: an
occurrence preceded by the string start or a boundary character and
followed by a boundary character or the string end — exactly the
positions at which the compiled rule pattern can match. -/
def hasWholeWordGo (cmd : List Char) : Bool → List Char → Bool
  | _, [] => false
  | bOk, c :: rest =>
    (bOk && (matchLen cmd (c :: rest)).isSome) || hasWholeWordGo cmd (isCmdBoundary c) rest

def hasWholeWord (cmd text : String) : Bool :=
  hasWholeWordGo cmd.data true text.data

/-- Dictionary lookup in the profile table. -/
def lookupProfile (k : String) : List (String × Profile) → Option Profile
  | [] => none
  | (k2, p) :: rest => if k2 == k then some p else lookupProfile k rest

/-- `TriggerLenGE a b` : rule `a`'s trigger is at least as long as rule
`b`'s — the ordering the matcher list is sorted by (descending trigger
length). -/
def TriggerLenGE (a b : String × String) : Prop :=
  b.1.length ≤ a.1.length

/-! ## Helper lemmas -/

theorem startsWith_append (p r : List Char) : startsWith p (p ++ r) = true := by
  induction p with
  | nil => rfl
  | cons a as ih => simp [startsWith, ih]

theorem mem_insertCmd (x z : String × String) (l : List (String × String)) :
    z ∈ insertCmd x l ↔ z = x ∨ z ∈ l := by
  induction l with
  | nil => simp [insertCmd]
  | cons y ys ih =>
    simp only [insertCmd]
    by_cases h : y.1.length ≤ x.1.length
    · rw [if_pos h]
      simp only [List.mem_cons]
    · rw [if_neg h]
      simp only [List.mem_cons, ih]
      tauto

theorem sorted_insertCmd (x : String × String) {l : List (String × String)}
    (hl : List.Sorted TriggerLenGE l) :
    List.Sorted TriggerLenGE (insertCmd x l) := by
  induction l with
  | nil => simp [insertCmd]
  | cons y ys ih =>
    rw [List.sorted_cons] at hl
    obtain ⟨hy, hys⟩ := hl
    simp only [insertCmd]
    by_cases h : y.1.length ≤ x.1.length
    · rw [if_pos h, List.sorted_cons]
      refine ⟨?_, ?_⟩
      · intro z hz
        rcases List.mem_cons.mp hz with rfl | hz2
        · exact h
        · exact le_trans (hy z hz2) h
      · rw [List.sorted_cons]
        exact ⟨hy, hys⟩
    · rw [if_neg h, List.sorted_cons]
      refine ⟨?_, ih hys⟩
      intro z hz
      rcases (mem_insertCmd x z ys).mp hz with rfl | hz2
      · exact le_of_not_le h
      · exact hy z hz2

theorem sortCmds_sorted (l : List (String × String)) :
    List.Sorted TriggerLenGE (sortCmds l) := by
  induction l with
  | nil => simp [sortCmds]
  | cons x xs ih => exact sorted_insertCmd x ih

/-- Consuming the tail of a match: running the substitution scanner with a
skip budget of `(p ++ [d]).length` over `(p ++ [d]) ++ rest` silently
consumes `p ++ [d]` and resumes at `rest`, the boundary flag being that
of the last consumed character. -/
theorem subGo_skip (cmd repl p : List Char) (d : Char) (b : Bool) (rest : List Char) :
    subGo cmd repl (p ++ [d]).length b ((p ++ [d]) ++ rest) =
      subGo cmd repl 0 (isCmdBoundary d) rest := by
  induction p generalizing b with
  | nil => rfl
  | cons a p2 ih => exact ih (isCmdBoundary a)

/-- Unfolding the scanner at a successful match from a boundary-ok
position. -/
theorem subGo_match (cmd repl : List Char) (a : Char) (rest : List Char) (m : Nat)
    (h : matchLen cmd (a :: rest) = some m) :
    subGo cmd repl 0 true (a :: rest) = repl ++ subGo cmd repl (m - 1) (a == '\n') rest := by
  simp [subGo, h]

theorem annotateFirst_some (pred : String → Bool) (app : String)
    (l : List (String × Profile)) :
    ∀ (p : Profile) (t : List (String × Profile)),
      annotateFirst pred app l = some (p, t) →
      p.appName = some app ∧ p ∈ t.map Prod.snd := by
  induction l with
  | nil => intro p t h; simp [annotateFirst] at h
  | cons kp rest ih =>
    intro p t h
    obtain ⟨k, q⟩ := kp
    simp only [annotateFirst] at h
    by_cases hp : pred k
    · rw [if_pos hp] at h
      simp only [Option.some.injEq, Prod.mk.injEq] at h
      obtain ⟨rfl, rfl⟩ := h
      exact ⟨rfl, by simp⟩
    · rw [if_neg hp] at h
      cases hrec : annotateFirst pred app rest with
      | none => rw [hrec] at h; simp at h
      | some qt =>
        obtain ⟨q2, t2⟩ := qt
        rw [hrec] at h
        simp only [Option.some.injEq, Prod.mk.injEq] at h
        obtain ⟨rfl, rfl⟩ := h
        obtain ⟨h1, h2⟩ := ih q2 t2 hrec
        exact ⟨h1, by simp [h2]⟩

/-! ## Claims -/

/-- C1 (counterexample): the Plain-Text Reducer is *not* idempotent.  On
`"# # x"` one application strips the first heading marker, uncovering a
second one at the new line start, which only a second application
strips: `strip("# # x") = "# x"` but `strip(strip("# # x")) = "x"`. -/
theorem C1_strip_idempotent_cex :
    strip_markdown (strip_markdown "# # x") ≠ strip_markdown "# # x" := by decide

/-- C1 (amended): `strip` is not idempotent; a second application can
strip markers that the first application uncovered.  Concretely, the
heading pass removes only the leading `"# "` of `"# # x"` (re-applying
removes the rest), and the inline-code pass rewrites `"``x``"` to
`` "`x`" ``, which a second application unwraps to `"x"`. -/
theorem C1_strip_idempotent_amended :
    strip_markdown "# # x" = "# x" ∧ strip_markdown "# x" = "x" ∧
    strip_markdown "``x``" = "`x`" ∧ strip_markdown "`x`" = "x" := by decide

/-- C2 (counterexample): replacement text inserted by one rule *can* be
matched as a later rule's trigger in the same `process` call.  With the
custom rule `("ああ", "改行 x")`, processing `"ああ"` first yields
`"改行 x"`, and the later built-in rule `改行` then rewrites the inserted
text, giving `"x"` instead of `"改行 x"`. -/
theorem C2_single_pass_cex :
    vcProcess true [("ああ", "改行 x")] "ああ" = "x" ∧
    vcProcess true [("ああ", "改行 x")] "ああ" ≠ "改行 x" := by decide

/-- C2 (amended): each rule is applied in a single left-to-right pass in
priority order, and within a rule's own pass its replacement text is
never rescanned (a rule whose replacement contains its own trigger does
not cascade); but the rules run sequentially on the evolving text, so
text inserted by an earlier rule is visible to, and can be rewritten by,
a later rule. -/
theorem C2_single_pass_amended :
    vcProcess true [("ああ", "ああ x")] "ああ" = "ああ x" ∧
    vcProcess true [("ああ", "改行 x")] "ああ" = "x" := by decide

/-- C3 (counterexample): with rules `A = "あ"`, `B = "ああ"` and a third,
longer rule `C = "x ああ"`, the transcript `"x ああ"` contains `B` as a
whole word, yet the output is `C`'s replacement `"R"` and `B`'s
replacement `"Q"` appears nowhere — the occurrence was consumed by the
longer overlapping rule `C`, so "rewritten with B's replacement" fails
as a universal statement. -/
theorem C3_longest_first_cex :
    hasWholeWord "ああ" "x ああ" = true ∧
    vcProcess true [("あ", "P"), ("ああ", "Q"), ("x ああ", "R")] "x ああ" = "R" ∧
    listInfix "Q".data "R".data = false := by decide

/-- C3 (amended): the matcher list really is ordered longest trigger
first (for every rule table the built list is sorted by descending
trigger length), user rules precede built-ins on equal-length ties, and
when no third rule's match overlaps the occurrence the longer trigger
wins: `"大見出し"` is rewritten with `大見出し`'s replacement (giving
`"#"`), never with substring-rule `見出し`'s (`"##"`). -/
theorem C3_longest_first_amended :
    (∀ cs : List (String × String), List.Sorted TriggerLenGE (sortCmds cs)) ∧
    (sortCmds ([("ああ", "X")] ++ COMMANDS)).findIdx (fun p => p.1 == "ああ") <
      (sortCmds ([("ああ", "X")] ++ COMMANDS)).findIdx (fun p => p.1 == "改行") ∧
    vcProcess true [] "大見出し" = "#" := by
  refine ⟨sortCmds_sorted, by decide, by decide⟩

/-- C4 (counterexample): resolving `"Slack"` against the default table
*does* mutate the stored entry — the table after resolution differs from
the table before — and the profile handed to the caller is exactly the
(annotated) stored entry, not an independent copy. -/
theorem C4_resolution_pure_cex :
    (get_profile defaultManager (some "Slack") "").2 ≠ defaultManager ∧
    lookupProfile "Slack" (get_profile defaultManager (some "Slack") "").2.profiles =
      some (get_profile defaultManager (some "Slack") "").1 := by decide

/-- C4 (amended): on an exact or fuzzy match the resolver annotates the
stored entry in place with the resolved identifier and returns that
stored entry (first conjunct: whenever the annotation walk succeeds, the
returned profile carries `_app_name` and is itself a member of the
updated table); resolution with the feature disabled returns the shared
fallback and leaves the table untouched; an unmatched identifier returns
an independent annotated copy of the fallback and leaves the table
untouched; and re-resolving the same identifier is idempotent on the
table. -/
theorem C4_resolution_pure_amended :
    (∀ (pred : String → Bool) (app : String) (l : List (String × Profile))
        (p : Profile) (t : List (String × Profile)),
        annotateFirst pred app l = some (p, t) →
        p.appName = some app ∧ p ∈ t.map Prod.snd) ∧
    (∀ (mgr : AppProfileManager) (a : Option String) (act : String),
        mgr.enabled = false → get_profile mgr a act = (FALLBACK_PROFILE, mgr)) ∧
    ((get_profile defaultManager (some "NoSuchApp") "").2 = defaultManager ∧
      (get_profile defaultManager (some "NoSuchApp") "").1 =
        { FALLBACK_PROFILE with appName := some "NoSuchApp" }) ∧
    get_profile (get_profile defaultManager (some "Slack") "").2 (some "Slack") "" =
      get_profile defaultManager (some "Slack") "" := by
  refine ⟨?_, ?_, by decide, by decide⟩
  · intro pred app l p t h
    exact annotateFirst_some pred app l p t h
  · intro mgr a act h
    simp [get_profile, h]

/-- C4 (witness). -/
theorem C4_resolution_pure_amended_witness :
    (({ FALLBACK_PROFILE with appName := some "A" } : Profile).appName = some "A" ∧
      ({ FALLBACK_PROFILE with appName := some "A" } : Profile) ∈
        ([("A", ({ FALLBACK_PROFILE with appName := some "A" } : Profile))].map Prod.snd)) ∧
    get_profile ⟨false, []⟩ none "x" = (FALLBACK_PROFILE, ⟨false, []⟩) :=
  ⟨C4_resolution_pure_amended.1 (fun k => k == "A") "A" [("A", FALLBACK_PROFILE)] _ _
      (by decide),
    C4_resolution_pure_amended.2.1 ⟨false, []⟩ none "x" rfl⟩

/-- C5 (counterexample): when client construction fails (`_get_client`
raises — the call sits *outside* the `try` block), `format_text` raises
to its caller instead of substituting the pre-formatting text. -/
theorem C5_formatter_failure_cex :
    format_text (C := Unit) (Except.error (PyErr.otherErr "boom"))
      (fun _ => Except.ok none) (fun _ => Except.ok none) "x" =
      Except.error (PyErr.otherErr "boom") := rfl

/-- C5 (amended): once a client exists, `format_text` never raises (it
always returns `ok`); a generation-request error yields the raw input
text unchanged (for non-blank input); but a client-construction failure
propagates to the caller (for non-blank input). -/
theorem C5_formatter_failure_amended : ∀ {C : Type} (c : C)
    (gen genOld : C → Except PyErr (Option String)) (raw : String) (e : PyErr) (m : String),
    (∃ s, format_text (Except.ok c) gen genOld raw = Except.ok s) ∧
    (gen c = Except.error (PyErr.otherErr m) →
      format_text (Except.ok c) gen genOld raw =
        Except.ok (if pyStrip raw == "" then "" else raw)) ∧
    format_text (Except.error e) gen genOld raw =
      (if pyStrip raw == "" then Except.ok "" else Except.error e) := by
  intro C c gen genOld raw e m
  refine ⟨?_, ?_, ?_⟩
  · by_cases hb : pyStrip raw == ""
    · exact ⟨"", by simp [format_text, hb]⟩
    · cases hg : gen c with
      | ok t => exact ⟨respText t raw, by simp [format_text, hb, hg]⟩
      | error pe =>
        cases pe with
        | importErr =>
          cases hgo : genOld c with
          | ok t => exact ⟨respText t raw, by simp [format_text, hb, hg, hgo]⟩
          | error e2 => exact ⟨raw, by simp [format_text, hb, hg, hgo]⟩
        | otherErr msg => exact ⟨raw, by simp [format_text, hb, hg]⟩
  · intro hg
    by_cases hb : pyStrip raw == ""
    · simp [format_text, hb]
    · simp [format_text, hb, hg]
  · by_cases hb : pyStrip raw == ""
    · simp [format_text, hb]
    · simp [format_text, hb]

/-- C5 (witness). -/
theorem C5_formatter_failure_amended_witness :
    format_text (Except.ok ()) (fun _ => Except.error (PyErr.otherErr "E"))
      (fun _ => Except.ok none) "x" = Except.ok "x" := by
  have h := (C5_formatter_failure_amended () (fun _ => Except.error (PyErr.otherErr "E"))
    (fun _ => Except.ok none) "x" PyErr.importErr "E").2.1 rfl
  rw [h]
  rfl

/-- C6: evaluating `_strip_markdown` at the failing input `"```x```"`.
The inline-code pass runs before the code-block pass and rewrites each
`"```"` fence to a single backtick, so the code-block deletion pass never
sees a fence: the result is `` "`x`" `` — the block's content `"x"`
survives — where the claim (and the pass's own purpose) requires the
fenced block, content and fences both, to be deleted. -/
theorem C6_code_block_deletion :
    strip_markdown "```x```" = "`x`" ∧
    listInfix "x".data (strip_markdown "```x```").data = true := by decide

/-- C7 (counterexample): a qualifying tap (at 100.00s/100.10s), then a
long hold (pressed 100.15s, released 100.41s — 0.26s ≥ the 0.25s
threshold), then another qualifying tap (100.43s/100.50s) *does* emit a
Trigger: the long hold leaves the pending-tap timestamp from the first
tap in place, and the third tap pairs with it inside the 0.5s double-tap
window. -/
theorem C7_long_hold_cex :
    TAP_THRESHOLD ≤ (10041 : ℚ) / 100 - (10015 : ℚ) / 100 ∧
    (grun initGState [((10000 : ℚ) / 100, true), ((10010 : ℚ) / 100, false),
      ((10015 : ℚ) / 100, true), ((10041 : ℚ) / 100, false),
      ((10043 : ℚ) / 100, true), ((10050 : ℚ) / 100, false)]).2 = 1 := by
  constructor
  · norm_num [TAP_THRESHOLD]
  · norm_num [grun, gstep, initGState, TAP_THRESHOLD, DOUBLE_TAP_INTERVAL]

/-- C7 (amended): a release whose press duration meets or exceeds the tap
threshold emits no Trigger and records no new tap — but it does *not*
clear a previously recorded pending tap (`lastTap` is left unchanged
rather than reset), so a later qualifying tap within the double-tap
window of the *earlier* tap can still trigger. -/
theorem C7_long_hold_amended :
    ∀ (s : GState) (t : ℚ), s.wasPressed = true → TAP_THRESHOLD ≤ t - s.pressTime →
      gstep s t false = ({ s with wasPressed := false }, false) := by
  intro s t h h2
  simp [gstep, h, not_lt.mpr h2]

/-- C7 (witness). -/
theorem C7_long_hold_amended_witness :
    gstep ⟨100, 50, true⟩ 101 false =
      ({ pressTime := 100, lastTap := 50, wasPressed := false }, false) :=
  C7_long_hold_amended ⟨100, 50, true⟩ 101 rfl (by norm_num [TAP_THRESHOLD])

/-- C8: a trigger delivered while the session is Processing is rejected
with the busy notification: the state (recording and processing flags,
icon, menu titles, status) is returned unchanged, no capture is started
and no processing thread is spawned. -/
theorem C8_processing_rejects_trigger :
    ∀ (s : AppState) (audioPath : String), s.processing = true →
      toggle_recording s audioPath = (s, ⟨some BUSY_MSG, false, false⟩) := by
  intro s audioPath h
  simp [toggle_recording, h]

/-- C8 (witness). -/
theorem C8_processing_rejects_trigger_witness :
    toggle_recording ⟨false, true, false, "⏳", "処理中...", "待機中"⟩ "path.wav" =
      (⟨false, true, false, "⏳", "処理中...", "待機中"⟩, ⟨some BUSY_MSG, false, false⟩) :=
  C8_processing_rejects_trigger ⟨false, true, false, "⏳", "処理中...", "待機中"⟩ "path.wav" rfl

/-- C9: after every processing run — whichever step fails or raises, and
also on the early no-speech return — the `finally` block leaves the
session Idle: the processing flag is cleared, the idle icon and button
title are restored, and cleanup of the temporary audio file runs. -/
theorem C9_finally_restores_idle :
    ∀ (s : AppState) (o : StepOutcomes),
      (process_audio s o).1.processing = false ∧
      (process_audio s o).1.title = ICON_IDLE ∧
      (process_audio s o).1.recordButtonTitle = IDLE_BUTTON ∧
      (process_audio s o).2 = true :=
  fun _ _ => ⟨rfl, rfl, rfl, rfl⟩

/-- C10: in a voice-command substitution the single boundary character
after the matched trigger is consumed and deleted with the trigger — for
every rule, replacement, boundary character and remaining text, matching
at a boundary-ok position emits the replacement and resumes after the
consumed boundary character — while a boundary character *preceding* the
trigger is only inspected by the look-behind and is preserved:
`process("あ。太字。")` keeps the leading `"あ。"` and deletes the `"。"`
after the trigger, giving `"あ。**"`. -/
theorem C10_trailing_boundary_consumed :
    (∀ (cmd repl : List Char) (c : Char) (tail : List Char), cmd ≠ [] →
        isCmdBoundary c = true →
        subAll cmd repl (cmd ++ c :: tail) = repl ++ subAll cmd repl tail) ∧
    vcProcess true [] "あ。太字。" = "あ。**" := by
  refine ⟨?_, by decide⟩
  intro cmd repl c tail hne hb
  obtain ⟨a, cmd2, rfl⟩ : ∃ a t2, cmd = a :: t2 := by
    cases cmd with
    | nil => exact absurd rfl hne
    | cons a t2 => exact ⟨a, t2, rfl⟩
  have h1 : matchLen (a :: cmd2) (a :: (cmd2 ++ c :: tail)) = some ((a :: cmd2).length + 1) := by
    have hsw : startsWith (a :: cmd2) (a :: (cmd2 ++ c :: tail)) = true := by
      have h0 := startsWith_append (a :: cmd2) (c :: tail)
      simpa using h0
    have hdrop : (a :: (cmd2 ++ c :: tail)).drop (a :: cmd2).length = c :: tail := by
      simp [List.length_cons, List.drop_succ_cons, List.drop_left]
    simp [matchLen, hsw, hdrop, hb]
  show subGo (a :: cmd2) repl 0 true ((a :: cmd2) ++ c :: tail) =
    repl ++ subGo (a :: cmd2) repl 0 true tail
  rw [List.cons_append]
  rw [subGo_match (a :: cmd2) repl a (cmd2 ++ c :: tail) ((a :: cmd2).length + 1) h1]
  congr 1
  have hlen : (a :: cmd2).length + 1 - 1 = (cmd2 ++ [c]).length := by simp
  rw [hlen]
  have hsplit : cmd2 ++ c :: tail = (cmd2 ++ [c]) ++ tail := by simp
  rw [hsplit]
  rw [subGo_skip (a :: cmd2) repl cmd2 c (a == '\n') tail]
  rw [hb]

/-- C10 (witness). -/
theorem C10_trailing_boundary_consumed_witness :
    subAll "改行".data "\n".data ("改行".data ++ '。' :: "です".data) =
      "\n".data ++ subAll "改行".data "\n".data "です".data :=
  C10_trailing_boundary_consumed.1 "改行".data "\n".data '。' "です".data
    (by decide) (by decide)
